import Mathlib

/-!
Verification of the serverless-workflow SDK document-to-model pipeline.

Part A embeds, field for field, the code of `model/event.go` (the `Event`,
`Correlation` and `EventRef` structs together with their `validate` struct
tags and the registered struct-level validation hook).

Part B models, from the specification, the pipeline stages whose code is
not part of the sources at hand (document loader, polymorphic resolver,
default injector, validator, serializer); every such definition carries a
`Modelled from the spec:` doc comment.
-/

set_option maxHeartbeats 1000000

namespace SdkGo

/-- A generic, order-preserving tree of scalars, sequences and mappings, as
produced by the document loader from JSON or YAML bytes. -/
inductive Json where
  | null
  | bool (b : Bool)
  | num (n : Int)
  | str (s : String)
  | arr (elems : List Json)
  | obj (fields : List (String × Json))
deriving Repr

/-- Duplicate mapping keys resolve last-write-wins, so a key lookup returns
the value of the last occurrence of the key. -/
def Json.lookup (fields : List (String × Json)) (key : String) : Option Json :=
  ((fields.filter (fun f => f.1 = key)).getLast?).map (fun f => f.2)

/-- Reading a Go `string`-typed struct field from a decoded object: an absent
key leaves the zero value `""`; a present key must hold a string. -/
def Json.getStr (fields : List (String × Json)) (key : String) : Option String :=
  match Json.lookup fields key with
  | none => some ""
  | some (Json.str s) => some s
  | some _ => none

/-- Reading a Go `bool`-typed struct field: absent leaves the zero value
`false`; present must hold a boolean. -/
def Json.getBool (fields : List (String × Json)) (key : String) : Option Bool :=
  match Json.lookup fields key with
  | none => some false
  | some (Json.bool b) => some b
  | some _ => none

/-! ### Part A: `model/event.go` -/

/-- One violation reported by the validator: the struct field it concerns and
the machine-readable reason tag (a `validate` tag name or the custom tag of a
struct-level hook). Mirrors the `(field, tag)` pair of a go-playground
`FieldError`. -/
structure Violation where
  field : String
  tag : String
deriving DecidableEq, Repr

/-- The `EventKind` type is a string type in the source. -/
abbrev EventKind := String

/-- Constant `EventKindConsumed EventKind = "consumed"`. -/
def EventKindConsumed : EventKind := "consumed"

/-- Constant `EventKindProduced EventKind = "produced"`. -/
def EventKindProduced : EventKind := "produced"

/-- The `Correlation` struct: `ContextAttributeName` carries
`validate:"required"`, `ContextAttributeValue` carries no validation tag. -/
structure Correlation where
  contextAttributeName : String
  contextAttributeValue : String
deriving DecidableEq, Repr

/-- The `Event` struct of `model/event.go` with its JSON fields
(`name`, `source`, `type`, `kind`, `dataOnly`, `correlation`). -/
structure Event where
  name : String
  source : String
  type : String
  kind : EventKind
  dataOnly : Bool
  correlation : List Correlation
deriving DecidableEq, Repr

/-- Tag-level validation of one `Correlation` entry:
`ContextAttributeName string validate:"required"` (non-zero string), while
`ContextAttributeValue` has no tag and is never checked. -/
def Correlation.fieldViolations (c : Correlation) : List Violation :=
  if c.contextAttributeName = "" then [⟨"ContextAttributeName", "required"⟩] else []

/-- Tag-level validation of `Event`: `Name` and `Type` carry
`validate:"required"`; `Correlation` carries `validate:"omitempty,dive"`, so
each entry of a present list is validated. -/
def Event.fieldViolations (e : Event) : List Violation :=
  (if e.name = "" then [⟨"Name", "required"⟩] else [])
    ++ (if e.type = "" then [⟨"Type", "required"⟩] else [])
    ++ e.correlation.flatMap Correlation.fieldViolations

/-- The registered struct-level hook `EventStructLevelValidation`: it
reports `Type`/`reqtypeconsumed` when `event.Kind == EventKindConsumed &&
len(event.Type) == 0`. -/
def EventStructLevelValidation (e : Event) : List Violation :=
  if e.kind = EventKindConsumed ∧ e.type.length = 0 then
    [⟨"Type", "reqtypeconsumed"⟩]
  else []

/-- Full structural validation of an `Event`: the tag-level checks together
with the registered struct-level hook. -/
def Event.validateStruct (e : Event) : List Violation :=
  e.fieldViolations ++ EventStructLevelValidation e

/-- An `Event` passes structural validation when no violation is reported. -/
def Event.structValid (e : Event) : Bool :=
  e.validateStruct = []

/-! ### Part A: the `EventRef` struct of `model/event.go` -/

/-- The `EventRef` struct: the legacy spellings `triggerEventRef` /
`resultEventRef` and the 0.8 spellings `produceEventref` / `consumeEventRef`
are four distinct fields (all four tagged `validate:"required"`), plus
`consumeEventTimeout`, `data` and `contextAttributes`. -/
structure EventRef where
  triggerEventRef : String
  produceEventRef : String
  resultEventRef : String
  consumeEventRef : String
  consumeEventTimeout : String
  data : Option Json
  contextAttributes : List (String × Json)
deriving Repr

/-- JSON decoding of `EventRef` driven by its struct tags: each field is
populated from exactly the key its `json:` tag names (note the source tag
`produceEventref` with a lowercase `r`), absent keys keep the zero value. -/
def decodeEventRef (fields : List (String × Json)) : Option EventRef := do
  let trigger ← Json.getStr fields "triggerEventRef"
  let produce ← Json.getStr fields "produceEventref"
  let result ← Json.getStr fields "resultEventRef"
  let consume ← Json.getStr fields "consumeEventRef"
  let timeout ← Json.getStr fields "consumeEventTimeout"
  let data := Json.lookup fields "data"
  let ctxAttrs :=
    match Json.lookup fields "contextAttributes" with
    | some (Json.obj o) => o
    | _ => []
  pure ⟨trigger, produce, result, consume, timeout, data, ctxAttrs⟩

/-! ### Part B: the pipeline stages absent from the sources at hand.

The polymorphic resolver, default injector, validator and serializer of the
repository are not among the given sources (only their tests and test data
are), so they are modelled from the specification below. -/

/-- A `Transition` names the next state to execute. -/
structure Transition where
  nextState : String
deriving DecidableEq, Repr

/-- An `End` terminates a branch of execution. -/
structure End where
  terminate : Bool
deriving DecidableEq, Repr

/-- A data condition: a boolean expression string, leading either to a
`Transition` or to an `End` (a structural discriminator: which sibling key is
present selects the variant). -/
inductive DataCondition where
  | transition (condition : String) (t : Transition)
  | endCond (condition : String) (e : End)
deriving DecidableEq, Repr

/-- An event condition: an event reference, leading either to a `Transition`
or to an `End`. -/
inductive EventCondition where
  | transition (eventRef : String) (t : Transition)
  | endCond (eventRef : String) (e : End)
deriving DecidableEq, Repr

/-- The mandatory default condition of a switch state: `Transition` or
`End`. -/
inductive DefaultCondition where
  | transition (t : Transition)
  | endCond (e : End)
deriving DecidableEq, Repr

/-- The closed polymorphic `State` type, fully resolved and with defaults
injected. Each variant carries the common header (name) and, for non-switch
variants, its optional outgoing `Transition` and optional terminal `End`. -/
inductive State where
  | operation (name : String) (actionMode : String)
      (transition : Option Transition) (stEnd : Option End)
  | event (name : String) (exclusive : Bool)
      (transition : Option Transition) (stEnd : Option End)
  | dataBasedSwitch (name : String) (dataConditions : List DataCondition)
      (defaultCondition : Option DefaultCondition)
  | eventBasedSwitch (name : String) (eventConditions : List EventCondition)
      (defaultCondition : Option DefaultCondition)
  | parallel (name : String)
      (transition : Option Transition) (stEnd : Option End)
  | forEach (name : String)
      (transition : Option Transition) (stEnd : Option End)
  | callback (name : String)
      (transition : Option Transition) (stEnd : Option End)
  | sleep (name : String) (duration : String)
      (transition : Option Transition) (stEnd : Option End)
  | inject (name : String)
      (transition : Option Transition) (stEnd : Option End)
deriving DecidableEq, Repr

/-- A retry strategy; `maxAttempts` has already been normalized from its
int-or-string surface form to a single integer. -/
structure Retry where
  name : String
  delay : String
  maxAttempts : Int
deriving DecidableEq, Repr

/-- The fully resolved, defaulted workflow model. -/
structure Workflow where
  id : String
  name : String
  version : String
  specVersion : String
  start : String
  states : List State
  events : List Event
  retries : List Retry
deriving DecidableEq, Repr

/-- A resolved state before default injection: the defaulted fields
(`actionMode`, `exclusive`) keep a presence record (`none` = absent from the
raw document). -/
inductive RawState where
  | operation (name : String) (actionMode : Option String)
      (transition : Option Transition) (stEnd : Option End)
  | event (name : String) (exclusive : Option Bool)
      (transition : Option Transition) (stEnd : Option End)
  | dataBasedSwitch (name : String) (dataConditions : List DataCondition)
      (defaultCondition : Option DefaultCondition)
  | eventBasedSwitch (name : String) (eventConditions : List EventCondition)
      (defaultCondition : Option DefaultCondition)
  | parallel (name : String)
      (transition : Option Transition) (stEnd : Option End)
  | forEach (name : String)
      (transition : Option Transition) (stEnd : Option End)
  | callback (name : String)
      (transition : Option Transition) (stEnd : Option End)
  | sleep (name : String) (duration : String)
      (transition : Option Transition) (stEnd : Option End)
  | inject (name : String)
      (transition : Option Transition) (stEnd : Option End)
deriving DecidableEq, Repr

/-- A resolved event definition before default injection: `kind` keeps a
presence record. -/
structure RawEvent where
  name : String
  source : String
  type : String
  kind : Option String
  dataOnly : Bool
  correlation : List Correlation
deriving DecidableEq, Repr

/-- A resolved workflow before default injection. -/
structure RawWorkflow where
  id : String
  name : String
  version : String
  specVersion : String
  start : String
  states : List RawState
  events : List RawEvent
  retries : List Retry
deriving DecidableEq, Repr

/-- The structured pipeline error: a discriminated union of `FormatError`,
`UnsupportedTypeError` (carrying the offending field path and value) and
`ValidationError` (carrying the aggregated violations of both passes). -/
inductive ParseError where
  | formatError (msg : String)
  | unsupportedType (path : String) (value : String)
  | validationError (violations : List Violation)
deriving DecidableEq, Repr

/-- Lenient string read used by the resolver: absent keys and non-string
values leave the Go zero value `""`. -/
def strD (fields : List (String × Json)) (key : String) : String :=
  match Json.lookup fields key with
  | some (Json.str s) => s
  | _ => ""

/-- Presence-recording string read: `none` when the key is absent or not a
string. -/
def strOpt (fields : List (String × Json)) (key : String) : Option String :=
  match Json.lookup fields key with
  | some (Json.str s) => some s
  | _ => none

/-- Presence-recording boolean read. -/
def boolOpt (fields : List (String × Json)) (key : String) : Option Bool :=
  match Json.lookup fields key with
  | some (Json.bool b) => some b
  | _ => none

/-- Lenient boolean read: absent keys leave the Go zero value `false`. -/
def boolD (fields : List (String × Json)) (key : String) : Bool :=
  (boolOpt fields key).getD false

/-- Modelled from the spec: decoding of an optional `transition` sub-object
by the polymorphic resolver. -/
def decodeTransitionOpt (fields : List (String × Json)) : Option Transition :=
  match Json.lookup fields "transition" with
  | some (Json.obj o) => some ⟨strD o "nextState"⟩
  | _ => none

/-- Modelled from the spec: decoding of an optional `end` sub-object. -/
def decodeEndOpt (fields : List (String × Json)) : Option End :=
  match Json.lookup fields "end" with
  | some (Json.obj o) => some ⟨boolD o "terminate"⟩
  | _ => none

/-- Modelled from the spec: a switch condition's outcome is selected by a
structural discriminator — a present `transition` key selects the transition
variant, else a present `end` key selects the end variant; a condition with
neither key resolves to a transition with an empty target (which the graph
pass then rejects as a dangling reference). -/
def decodeDataCondition (fields : List (String × Json)) : DataCondition :=
  let cond := strD fields "condition"
  match decodeTransitionOpt fields with
  | some t => DataCondition.transition cond t
  | none =>
    match decodeEndOpt fields with
    | some e => DataCondition.endCond cond e
    | none => DataCondition.transition cond ⟨""⟩

/-- Modelled from the spec: event-condition outcome, with the same structural
discriminator as data conditions. -/
def decodeEventCondition (fields : List (String × Json)) : EventCondition :=
  let ref := strD fields "eventRef"
  match decodeTransitionOpt fields with
  | some t => EventCondition.transition ref t
  | none =>
    match decodeEndOpt fields with
    | some e => EventCondition.endCond ref e
    | none => EventCondition.transition ref ⟨""⟩

/-- Modelled from the spec: decoding of the mandatory-or-absent
`defaultCondition` of a switch state (Transition-or-End, structurally
discriminated). -/
def decodeDefaultCondition (fields : List (String × Json)) : Option DefaultCondition :=
  match Json.lookup fields "defaultCondition" with
  | some (Json.obj o) =>
    match decodeTransitionOpt o with
    | some t => some (DefaultCondition.transition t)
    | none =>
      match decodeEndOpt o with
      | some e => some (DefaultCondition.endCond e)
      | none => none
  | _ => none

/-- Decode a JSON array of condition objects, skipping nothing: non-object
entries decode as empty objects. -/
def objFields : Json → List (String × Json)
  | Json.obj o => o
  | _ => []

/-- Modelled from the spec: the list of data conditions of a switch state,
in document order. -/
def decodeDataConditions (fields : List (String × Json)) : List DataCondition :=
  match Json.lookup fields "dataConditions" with
  | some (Json.arr l) => l.map (fun j => decodeDataCondition (objFields j))
  | _ => []

/-- Modelled from the spec: the list of event conditions of a switch state,
in document order. -/
def decodeEventConditions (fields : List (String × Json)) : List EventCondition :=
  match Json.lookup fields "eventConditions" with
  | some (Json.arr l) => l.map (fun j => decodeEventCondition (objFields j))
  | _ => []

/-- The closed enumeration of state-type discriminator values. -/
def recognizedStateTypes : List String :=
  ["operation", "switch", "event", "parallel", "foreach", "callback", "sleep", "inject"]

/-- The field path reported for the state discriminator at index `i`. -/
def statePath (i : Nat) : String :=
  "states[" ++ toString i ++ "].type"

/-- Modelled from the spec: the polymorphic resolver for one state at index
`i`. The `type` discriminator is read first; when absent it defaults to
`"operation"`; a value outside the closed enumeration fails with
`UnsupportedTypeError` naming the offending field path. `"switch"` is split
into the data-based and event-based variants by which conditions key is
present (a structural discriminator). -/
def resolveState (i : Nat) (j : Json) : Except ParseError RawState :=
  match j with
  | Json.obj o =>
    let name := strD o "name"
    let tname := (strOpt o "type").getD "operation"
    if tname = "operation" then
      .ok (RawState.operation name (strOpt o "actionMode")
        (decodeTransitionOpt o) (decodeEndOpt o))
    else if tname = "switch" then
      match Json.lookup o "dataConditions" with
      | some (Json.arr _) =>
        .ok (RawState.dataBasedSwitch name (decodeDataConditions o)
          (decodeDefaultCondition o))
      | _ =>
        .ok (RawState.eventBasedSwitch name (decodeEventConditions o)
          (decodeDefaultCondition o))
    else if tname = "event" then
      .ok (RawState.event name (boolOpt o "exclusive")
        (decodeTransitionOpt o) (decodeEndOpt o))
    else if tname = "parallel" then
      .ok (RawState.parallel name (decodeTransitionOpt o) (decodeEndOpt o))
    else if tname = "foreach" then
      .ok (RawState.forEach name (decodeTransitionOpt o) (decodeEndOpt o))
    else if tname = "callback" then
      .ok (RawState.callback name (decodeTransitionOpt o) (decodeEndOpt o))
    else if tname = "sleep" then
      .ok (RawState.sleep name (strD o "duration")
        (decodeTransitionOpt o) (decodeEndOpt o))
    else if tname = "inject" then
      .ok (RawState.inject name (decodeTransitionOpt o) (decodeEndOpt o))
    else
      .error (ParseError.unsupportedType (statePath i) tname)
  | _ => .error (ParseError.unsupportedType (statePath i) "not an object")

/-- Resolve a state list in order, propagating the first resolution error. -/
def resolveStates (i : Nat) : List Json → Except ParseError (List RawState)
  | [] => .ok []
  | j :: rest => do
    let s ← resolveState i j
    let ss ← resolveStates (i + 1) rest
    .ok (s :: ss)

/-- Modelled from the spec: decoding of one correlation entry (attribute
name / value pair). -/
def decodeCorrelation (fields : List (String × Json)) : Correlation :=
  ⟨strD fields "contextAttributeName", strD fields "contextAttributeValue"⟩

/-- Modelled from the spec: decoding of a `correlation` list into
`Correlation` entries. -/
def decodeCorrelations (fields : List (String × Json)) : List Correlation :=
  match Json.lookup fields "correlation" with
  | some (Json.arr l) => l.map (fun j => decodeCorrelation (objFields j))
  | _ => []

/-- Modelled from the spec: decoding of one event definition; `kind` keeps a
presence record so the default injector can distinguish absent from
explicitly supplied. -/
def decodeRawEvent (fields : List (String × Json)) : RawEvent :=
  ⟨strD fields "name", strD fields "source", strD fields "type",
   strOpt fields "kind", boolD fields "dataOnly", decodeCorrelations fields⟩

/-- The numeric value of a digit character. -/
def digitVal? (c : Char) : Option Nat :=
  if c = '0' then some 0 else if c = '1' then some 1 else if c = '2' then some 2
  else if c = '3' then some 3 else if c = '4' then some 4 else if c = '5' then some 5
  else if c = '6' then some 6 else if c = '7' then some 7 else if c = '8' then some 8
  else if c = '9' then some 9 else none

/-- Accumulating decimal parse of a digit-character list. -/
def parseDigits : List Char → Nat → Option Nat
  | [], acc => some acc
  | c :: rest, acc =>
    match digitVal? c with
    | some d => parseDigits rest (acc * 10 + d)
    | none => none

/-- Modelled from the spec: the numeric reading of a numeric string (a
non-empty run of decimal digits); any other string is rejected. -/
def parseNumericString? (s : String) : Option Int :=
  match s.data with
  | [] => none
  | cs => (parseDigits cs 0).map Int.ofNat

/-- Modelled from the spec: int-or-string normalization — a numeric literal
or a numeric string both resolve to the same integer; anything else is
rejected. An absent field resolves to the zero value. -/
def decodeIntOrString : Option Json → Option Int
  | none => some 0
  | some (Json.num n) => some n
  | some (Json.str s) => parseNumericString? s
  | some _ => none

/-- Modelled from the spec: decoding of one retry strategy, normalizing
`maxAttempts` by int-or-string semantics. -/
def decodeRetry (fields : List (String × Json)) : Option Retry := do
  let attempts ← decodeIntOrString (Json.lookup fields "maxAttempts")
  pure ⟨strD fields "name", strD fields "delay", attempts⟩

/-- Decode a retry list, failing on the first malformed strategy. -/
def decodeRetries (i : Nat) : List Json → Except ParseError (List Retry)
  | [] => .ok []
  | j :: rest =>
    match decodeRetry (objFields j) with
    | none =>
      .error (ParseError.unsupportedType
        ("retries[" ++ toString i ++ "].maxAttempts") "not int-or-string")
    | some r => do
      let rs ← decodeRetries (i + 1) rest
      .ok (r :: rs)

/-- Modelled from the spec: the polymorphic resolver for a whole document
(`resolve(GenericTree) -> RawWorkflow | UnsupportedTypeError`). -/
def resolveWorkflow (doc : Json) : Except ParseError RawWorkflow :=
  match doc with
  | Json.obj o => do
    let start :=
      match Json.lookup o "start" with
      | some (Json.obj so) => strD so "stateName"
      | some (Json.str s) => s
      | _ => ""
    let states ←
      match Json.lookup o "states" with
      | some (Json.arr l) => resolveStates 0 l
      | _ => .ok []
    let events :=
      match Json.lookup o "events" with
      | some (Json.arr l) => l.map (fun j => decodeRawEvent (objFields j))
      | _ => []
    let retries ←
      match Json.lookup o "retries" with
      | some (Json.arr l) => decodeRetries 0 l
      | _ => .ok []
    .ok ⟨strD o "id", strD o "name", strD o "version", strD o "specVersion",
      start, states, events, retries⟩
  | _ => .error (ParseError.formatError "document is not a mapping")

/-- Modelled from the spec: default injection for one state — event state
exclusivity defaults to `true`, action execution mode defaults to
`"sequential"`; defaults apply only to absent fields (the presence record is
`none`). -/
def applyStateDefaults : RawState → State
  | RawState.operation name actionMode t e =>
    State.operation name (actionMode.getD "sequential") t e
  | RawState.event name exclusive t e =>
    State.event name (exclusive.getD true) t e
  | RawState.dataBasedSwitch name conds dflt => State.dataBasedSwitch name conds dflt
  | RawState.eventBasedSwitch name conds dflt => State.eventBasedSwitch name conds dflt
  | RawState.parallel name t e => State.parallel name t e
  | RawState.forEach name t e => State.forEach name t e
  | RawState.callback name t e => State.callback name t e
  | RawState.sleep name d t e => State.sleep name d t e
  | RawState.inject name t e => State.inject name t e

/-- Modelled from the spec: default injection for one event definition —
`kind` defaults to `consumed` when absent, an explicitly supplied kind is
preserved unchanged. -/
def applyEventDefaults (r : RawEvent) : Event :=
  ⟨r.name, r.source, r.type, r.kind.getD EventKindConsumed, r.dataOnly, r.correlation⟩

/-- Modelled from the spec: `applyDefaults(RawWorkflow, specVersion) ->
RawWorkflow` — the default injector over the whole resolved document. -/
def applyDefaults (r : RawWorkflow) : Workflow :=
  ⟨r.id, r.name, r.version, r.specVersion, r.start,
   r.states.map applyStateDefaults, r.events.map applyEventDefaults, r.retries⟩

/-- The common state-header name, uniform across variants. -/
def State.stateName : State → String
  | State.operation n _ _ _ => n
  | State.event n _ _ _ => n
  | State.dataBasedSwitch n _ _ => n
  | State.eventBasedSwitch n _ _ => n
  | State.parallel n _ _ => n
  | State.forEach n _ _ => n
  | State.callback n _ _ => n
  | State.sleep n _ _ _ => n
  | State.inject n _ _ => n

/-- The transition targets named anywhere in a state: its own transition,
its conditions' transitions and its default condition's transition. -/
def State.targets : State → List String
  | State.operation _ _ t _ => (t.map Transition.nextState).toList
  | State.event _ _ t _ => (t.map Transition.nextState).toList
  | State.dataBasedSwitch _ conds dflt =>
    conds.flatMap (fun c =>
      match c with
      | DataCondition.transition _ t => [t.nextState]
      | DataCondition.endCond _ _ => []) ++
    (match dflt with
     | some (DefaultCondition.transition t) => [t.nextState]
     | _ => [])
  | State.eventBasedSwitch _ conds dflt =>
    conds.flatMap (fun c =>
      match c with
      | EventCondition.transition _ t => [t.nextState]
      | EventCondition.endCond _ _ => []) ++
    (match dflt with
     | some (DefaultCondition.transition t) => [t.nextState]
     | _ => [])
  | State.parallel _ t _ => (t.map Transition.nextState).toList
  | State.forEach _ t _ => (t.map Transition.nextState).toList
  | State.callback _ t _ => (t.map Transition.nextState).toList
  | State.sleep _ _ t _ => (t.map Transition.nextState).toList
  | State.inject _ t _ => (t.map Transition.nextState).toList

/-- The exactly-one-of-{Transition, End} rule for one non-switch state;
`isLast` enables the implicit-terminal exception for the last state of the
document. Switch states route through their conditions instead and are
covered by the default-condition presence rule. -/
def exactlyOneViolations (isLast : Bool) : State → List Violation
  | State.dataBasedSwitch _ _ _ => []
  | State.eventBasedSwitch _ _ _ => []
  | s =>
    match sTrans s, sEnd s with
    | some _, some _ => [⟨"states." ++ s.stateName, "transitionxorend"⟩]
    | none, none =>
      if isLast then [] else [⟨"states." ++ s.stateName, "transitionxorend"⟩]
    | _, _ => []
where
  sTrans : State → Option Transition
    | State.operation _ _ t _ => t
    | State.event _ _ t _ => t
    | State.parallel _ t _ => t
    | State.forEach _ t _ => t
    | State.callback _ t _ => t
    | State.sleep _ _ t _ => t
    | State.inject _ t _ => t
    | _ => none
  sEnd : State → Option End
    | State.operation _ _ _ e => e
    | State.event _ _ _ e => e
    | State.parallel _ _ e => e
    | State.forEach _ _ e => e
    | State.callback _ _ e => e
    | State.sleep _ _ _ e => e
    | State.inject _ _ e => e
    | _ => none

/-- Modelled from the spec: the structural pass — per-field checks
independent of the rest of the document (required fields, the event
kind/type co-requirement via the embedded `Event` validation, retry names). -/
def structuralPass (w : Workflow) : List Violation :=
  (if w.id = "" then [⟨"id", "required"⟩] else []) ++
  (if w.name = "" then [⟨"name", "required"⟩] else []) ++
  (if w.states = [] then [⟨"states", "required"⟩] else []) ++
  w.events.flatMap Event.validateStruct ++
  w.retries.flatMap (fun r => if r.name = "" then [⟨"retries.name", "required"⟩] else [])

/-- The default-condition presence rule for switch states. -/
def switchDefaultViolations : State → List Violation
  | State.dataBasedSwitch n _ none =>
    [⟨"states." ++ n ++ ".defaultCondition", "required"⟩]
  | State.eventBasedSwitch n _ none =>
    [⟨"states." ++ n ++ ".defaultCondition", "required"⟩]
  | _ => []

/-- Modelled from the spec: the graph pass — whole-document checks:
state-name uniqueness, start-reference resolution, transition-target
resolution, switch default-condition presence and the
exactly-one-of-{Transition, End} rule (with the implicit-terminal exception
for the last state). -/
def graphPass (w : Workflow) : List Violation :=
  let names := w.states.map State.stateName
  (if names.Nodup then [] else [⟨"states.name", "unique"⟩]) ++
  (if w.start ∈ names then [] else [⟨"start.stateName", "targetnotfound"⟩]) ++
  w.states.flatMap (fun s =>
    (s.targets.filter (fun t => ¬ t ∈ names)).map
      (fun t => ⟨"transition.nextState." ++ t, "targetnotfound"⟩)) ++
  w.states.flatMap switchDefaultViolations ++
  w.states.enum.flatMap (fun p =>
    exactlyOneViolations (p.1 + 1 = w.states.length) p.2)

/-- Modelled from the spec: `validate(RawWorkflow) -> Workflow |
ValidationError(list of Violation)` — both passes run to completion and
every violation of either pass is collected. -/
def validate (w : Workflow) : List Violation :=
  structuralPass w ++ graphPass w

/-- Modelled from the spec: the whole pipeline
`load → resolve → applyDefaults → validate` on an already-loaded generic
tree: either a fully valid `Workflow` or a single error; never a partial
model. -/
def pipeline (doc : Json) : Except ParseError Workflow :=
  match resolveWorkflow doc with
  | .error e => .error e
  | .ok raw =>
    if validate (applyDefaults raw) = [] then .ok (applyDefaults raw)
    else .error (ParseError.validationError (validate (applyDefaults raw)))

/-- Resolution followed by default injection for a single state. -/
def parseState (i : Nat) (j : Json) : Except ParseError State :=
  (resolveState i j).map applyStateDefaults

/-- The discriminator string a resolved state variant corresponds to. -/
def RawState.typeString : RawState → String
  | RawState.operation _ _ _ _ => "operation"
  | RawState.event _ _ _ _ => "event"
  | RawState.dataBasedSwitch _ _ _ => "switch"
  | RawState.eventBasedSwitch _ _ _ => "switch"
  | RawState.parallel _ _ _ => "parallel"
  | RawState.forEach _ _ _ => "foreach"
  | RawState.callback _ _ _ => "callback"
  | RawState.sleep _ _ _ _ => "sleep"
  | RawState.inject _ _ _ => "inject"

/-! ### The canonical re-serialization entry point (§4.5, §8). -/

/-- Serialize an optional transition as its sub-object. -/
def serializeTransitionOpt : Option Transition → List (String × Json)
  | none => []
  | some t => [("transition", Json.obj [("nextState", Json.str t.nextState)])]

/-- Serialize an optional end as its sub-object. -/
def serializeEndOpt : Option End → List (String × Json)
  | none => []
  | some e => [("end", Json.obj [("terminate", Json.bool e.terminate)])]

/-- Modelled from the spec: canonical serialization of a data condition
(the outcome is emitted under its structural discriminator key). -/
def serializeDataCondition : DataCondition → Json
  | DataCondition.transition c t =>
    Json.obj (("condition", Json.str c) :: serializeTransitionOpt (some t))
  | DataCondition.endCond c e =>
    Json.obj (("condition", Json.str c) :: serializeEndOpt (some e))

/-- Canonical serialization of an event condition. -/
def serializeEventCondition : EventCondition → Json
  | EventCondition.transition r t =>
    Json.obj (("eventRef", Json.str r) :: serializeTransitionOpt (some t))
  | EventCondition.endCond r e =>
    Json.obj (("eventRef", Json.str r) :: serializeEndOpt (some e))

/-- Canonical serialization of an optional default condition. -/
def serializeDefaultConditionOpt : Option DefaultCondition → List (String × Json)
  | none => []
  | some (DefaultCondition.transition t) =>
    [("defaultCondition", Json.obj (serializeTransitionOpt (some t)))]
  | some (DefaultCondition.endCond e) =>
    [("defaultCondition", Json.obj (serializeEndOpt (some e)))]

/-- Modelled from the spec: canonical serialization of one state. Defaulted
fields are emitted with their (possibly defaulted) values, so they need not
round-trip as absent. -/
def serializeState : State → Json
  | State.operation n am t e =>
    Json.obj ([("name", Json.str n), ("type", Json.str "operation"),
      ("actionMode", Json.str am)] ++ serializeTransitionOpt t ++ serializeEndOpt e)
  | State.event n ex t e =>
    Json.obj ([("name", Json.str n), ("type", Json.str "event"),
      ("exclusive", Json.bool ex)] ++ serializeTransitionOpt t ++ serializeEndOpt e)
  | State.dataBasedSwitch n conds dflt =>
    Json.obj ([("name", Json.str n), ("type", Json.str "switch"),
      ("dataConditions", Json.arr (conds.map serializeDataCondition))] ++
      serializeDefaultConditionOpt dflt)
  | State.eventBasedSwitch n conds dflt =>
    Json.obj ([("name", Json.str n), ("type", Json.str "switch"),
      ("eventConditions", Json.arr (conds.map serializeEventCondition))] ++
      serializeDefaultConditionOpt dflt)
  | State.parallel n t e =>
    Json.obj ([("name", Json.str n), ("type", Json.str "parallel")] ++
      serializeTransitionOpt t ++ serializeEndOpt e)
  | State.forEach n t e =>
    Json.obj ([("name", Json.str n), ("type", Json.str "foreach")] ++
      serializeTransitionOpt t ++ serializeEndOpt e)
  | State.callback n t e =>
    Json.obj ([("name", Json.str n), ("type", Json.str "callback")] ++
      serializeTransitionOpt t ++ serializeEndOpt e)
  | State.sleep n d t e =>
    Json.obj ([("name", Json.str n), ("type", Json.str "sleep"),
      ("duration", Json.str d)] ++ serializeTransitionOpt t ++ serializeEndOpt e)
  | State.inject n t e =>
    Json.obj ([("name", Json.str n), ("type", Json.str "inject")] ++
      serializeTransitionOpt t ++ serializeEndOpt e)

/-- Canonical serialization of one correlation entry. -/
def serializeCorrelation (c : Correlation) : Json :=
  Json.obj [("contextAttributeName", Json.str c.contextAttributeName),
    ("contextAttributeValue", Json.str c.contextAttributeValue)]

/-- Canonical serialization of one event definition. -/
def serializeEvent (e : Event) : Json :=
  Json.obj [("name", Json.str e.name), ("source", Json.str e.source),
    ("type", Json.str e.type), ("kind", Json.str e.kind),
    ("dataOnly", Json.bool e.dataOnly),
    ("correlation", Json.arr (e.correlation.map serializeCorrelation))]

/-- Canonical serialization of one retry strategy. -/
def serializeRetry (r : Retry) : Json :=
  Json.obj [("name", Json.str r.name), ("delay", Json.str r.delay),
    ("maxAttempts", Json.num r.maxAttempts)]

/-- Modelled from the spec: the re-serialization entry point from the model
back to the generic tree. -/
def serializeWorkflow (w : Workflow) : Json :=
  Json.obj [("id", Json.str w.id), ("name", Json.str w.name),
    ("version", Json.str w.version), ("specVersion", Json.str w.specVersion),
    ("start", Json.obj [("stateName", Json.str w.start)]),
    ("states", Json.arr (w.states.map serializeState)),
    ("events", Json.arr (w.events.map serializeEvent)),
    ("retries", Json.arr (w.retries.map serializeRetry))]

/-- The raw (pre-default-injection) form a state resolves back to from its
canonical serialization: the defaulted fields come back explicitly present. -/
def rawOfState : State → RawState
  | State.operation n am t e => RawState.operation n (some am) t e
  | State.event n ex t e => RawState.event n (some ex) t e
  | State.dataBasedSwitch n c d => RawState.dataBasedSwitch n c d
  | State.eventBasedSwitch n c d => RawState.eventBasedSwitch n c d
  | State.parallel n t e => RawState.parallel n t e
  | State.forEach n t e => RawState.forEach n t e
  | State.callback n t e => RawState.callback n t e
  | State.sleep n d t e => RawState.sleep n d t e
  | State.inject n t e => RawState.inject n t e

/-- The raw form an event definition resolves back to from its canonical
serialization. -/
def rawOfEvent (e : Event) : RawEvent :=
  ⟨e.name, e.source, e.type, some e.kind, e.dataOnly, e.correlation⟩

/-- The raw form a workflow resolves back to from its canonical
serialization. -/
def rawOfWorkflow (w : Workflow) : RawWorkflow :=
  ⟨w.id, w.name, w.version, w.specVersion, w.start,
   w.states.map rawOfState, w.events.map rawOfEvent, w.retries⟩

theorem objFields_obj (o : List (String × Json)) : objFields (Json.obj o) = o := rfl

theorem map_comp_id {α β : Type} {f : α → β} {g : β → α}
    (h : ∀ a, g (f a) = a) (l : List α) : l.map (g ∘ f) = l := by
  induction l with
  | nil => rfl
  | cons a rest ih => simp [Function.comp, h a, ih]

theorem map_comp_congr {α β γ : Type} {f : α → β} {g : β → γ} {k : α → γ}
    (h : ∀ a, g (f a) = k a) (l : List α) : l.map (g ∘ f) = l.map k := by
  induction l with
  | nil => rfl
  | cons a rest ih => simp [Function.comp, h a, ih]

theorem decodeDataCondition_serialize (c : DataCondition) :
    decodeDataCondition (objFields (serializeDataCondition c)) = c := by
  cases c <;>
    simp [serializeDataCondition, serializeTransitionOpt, serializeEndOpt, objFields,
      decodeDataCondition, decodeTransitionOpt, decodeEndOpt, strD, boolD, boolOpt,
      Json.lookup]

theorem decodeDataConditions_comp (l : List DataCondition) :
    List.map ((fun j => decodeDataCondition (objFields j)) ∘ serializeDataCondition) l = l :=
  map_comp_id decodeDataCondition_serialize l

theorem decodeRetry_serialize (r : Retry) :
    decodeRetry (objFields (serializeRetry r)) = some r := by
  simp [serializeRetry, objFields_obj, decodeRetry, decodeIntOrString, Json.lookup, strD]

theorem decodeRetries_serialize (l : List Retry) (i : Nat) :
    decodeRetries i (l.map serializeRetry) = .ok l := by
  induction l generalizing i with
  | nil => rfl
  | cons r rest ih =>
    simp only [List.map_cons, decodeRetries, decodeRetry_serialize r, ih (i + 1)]
    rfl

theorem decodeCorrelation_serialize (c : Correlation) :
    decodeCorrelation (objFields (serializeCorrelation c)) = c := by
  simp [serializeCorrelation, objFields_obj, decodeCorrelation, strD, Json.lookup]

theorem decodeCorrelations_comp (l : List Correlation) :
    List.map ((fun j => decodeCorrelation (objFields j)) ∘ serializeCorrelation) l = l :=
  map_comp_id decodeCorrelation_serialize l

theorem decodeRawEvent_serialize (e : Event) :
    decodeRawEvent (objFields (serializeEvent e)) = rawOfEvent e := by
  simp [serializeEvent, objFields_obj, decodeRawEvent, strD, strOpt, boolD, boolOpt,
    Json.lookup, decodeCorrelations, decodeCorrelations_comp, rawOfEvent]

theorem decodeRawEvents_comp (l : List Event) :
    List.map ((fun j => decodeRawEvent (objFields j)) ∘ serializeEvent) l = List.map rawOfEvent l :=
  map_comp_congr decodeRawEvent_serialize l

theorem decodeEventCondition_serialize (c : EventCondition) :
    decodeEventCondition (objFields (serializeEventCondition c)) = c := by
  cases c <;>
    simp [serializeEventCondition, serializeTransitionOpt, serializeEndOpt, objFields,
      decodeEventCondition, decodeTransitionOpt, decodeEndOpt, strD, boolD, boolOpt,
      Json.lookup]

theorem decodeEventConditions_comp (l : List EventCondition) :
    List.map ((fun j => decodeEventCondition (objFields j)) ∘ serializeEventCondition) l = l :=
  map_comp_id decodeEventCondition_serialize l

theorem resolveState_serializeState (i : Nat) (s : State) :
    resolveState i (serializeState s) = .ok (rawOfState s) := by
  cases s with
  | dataBasedSwitch n conds dflt =>
    rcases dflt with _ | c
    · simp [serializeState, serializeDefaultConditionOpt, resolveState, strD, strOpt,
        Json.lookup, decodeDataConditions, decodeDataConditions_comp,
        decodeDefaultCondition, rawOfState]
    · cases c <;>
        simp [serializeState, serializeDefaultConditionOpt, serializeTransitionOpt,
          serializeEndOpt, resolveState, strD, strOpt, boolD, boolOpt, Json.lookup,
          decodeDataConditions, decodeDataConditions_comp,
          decodeDefaultCondition, decodeTransitionOpt, decodeEndOpt, rawOfState]
  | eventBasedSwitch n conds dflt =>
    rcases dflt with _ | c
    · simp [serializeState, serializeDefaultConditionOpt, resolveState, strD, strOpt,
        Json.lookup, decodeEventConditions, decodeEventConditions_comp,
        decodeDefaultCondition, rawOfState]
    · cases c <;>
        simp [serializeState, serializeDefaultConditionOpt, serializeTransitionOpt,
          serializeEndOpt, resolveState, strD, strOpt, boolD, boolOpt, Json.lookup,
          decodeEventConditions, decodeEventConditions_comp,
          decodeDefaultCondition, decodeTransitionOpt, decodeEndOpt, rawOfState]
  | operation n am t e =>
    cases t <;> cases e <;>
      simp [serializeState, serializeTransitionOpt, serializeEndOpt, resolveState,
        strD, strOpt, boolOpt, boolD, Json.lookup, decodeTransitionOpt, decodeEndOpt,
        rawOfState]
  | event n ex t e =>
    cases t <;> cases e <;>
      simp [serializeState, serializeTransitionOpt, serializeEndOpt, resolveState,
        strD, strOpt, boolOpt, boolD, Json.lookup, decodeTransitionOpt, decodeEndOpt,
        rawOfState]
  | parallel n t e =>
    cases t <;> cases e <;>
      simp [serializeState, serializeTransitionOpt, serializeEndOpt, resolveState,
        strD, strOpt, boolOpt, boolD, Json.lookup, decodeTransitionOpt, decodeEndOpt,
        rawOfState]
  | forEach n t e =>
    cases t <;> cases e <;>
      simp [serializeState, serializeTransitionOpt, serializeEndOpt, resolveState,
        strD, strOpt, boolOpt, boolD, Json.lookup, decodeTransitionOpt, decodeEndOpt,
        rawOfState]
  | callback n t e =>
    cases t <;> cases e <;>
      simp [serializeState, serializeTransitionOpt, serializeEndOpt, resolveState,
        strD, strOpt, boolOpt, boolD, Json.lookup, decodeTransitionOpt, decodeEndOpt,
        rawOfState]
  | sleep n d t e =>
    cases t <;> cases e <;>
      simp [serializeState, serializeTransitionOpt, serializeEndOpt, resolveState,
        strD, strOpt, boolOpt, boolD, Json.lookup, decodeTransitionOpt, decodeEndOpt,
        rawOfState]
  | inject n t e =>
    cases t <;> cases e <;>
      simp [serializeState, serializeTransitionOpt, serializeEndOpt, resolveState,
        strD, strOpt, boolOpt, boolD, Json.lookup, decodeTransitionOpt, decodeEndOpt,
        rawOfState]

theorem resolveStates_serialize (l : List State) (i : Nat) :
    resolveStates i (l.map serializeState) = .ok (l.map rawOfState) := by
  induction l generalizing i with
  | nil => rfl
  | cons s rest ih =>
    simp only [List.map_cons, resolveStates, resolveState_serializeState i s, ih (i + 1)]
    rfl

theorem resolveWorkflow_serialize (w : Workflow) :
    resolveWorkflow (serializeWorkflow w) = .ok (rawOfWorkflow w) := by
  simp only [serializeWorkflow, resolveWorkflow]
  simp [Json.lookup, strD, resolveStates_serialize, decodeRetries_serialize,
    decodeRawEvents_comp, rawOfWorkflow]
  rfl

theorem applyStateDefaults_rawOf (s : State) :
    applyStateDefaults (rawOfState s) = s := by
  cases s <;> rfl

theorem applyDefaults_rawOf (w : Workflow) :
    applyDefaults (rawOfWorkflow w) = w := by
  have hs : ∀ l : List State,
      (l.map rawOfState).map applyStateDefaults = l := by
    intro l
    induction l with
    | nil => rfl
    | cons s rest ih => simp [applyStateDefaults_rawOf s, ih]
  have he : ∀ l : List Event,
      (l.map rawOfEvent).map applyEventDefaults = l := by
    intro l
    induction l with
    | nil => rfl
    | cons e rest ih =>
      simp [ih]
      rfl
  cases w
  simp [applyDefaults, rawOfWorkflow, hs, he]

/-! ### Claim C1 -/

/-- C1, counterexample: the claim asserts that an `Event` with
`kind = produced` and an empty `type` passes structural validation; on the
embedded code it does not, because `Type` carries an unconditional
`validate:"required"` tag in addition to the consumed-kind hook. -/
theorem C1_claim_counterexample :
    Event.structValid ⟨"provisioningCompleteEvent", "", "", EventKindProduced, false, []⟩
      = false := by
  decide

/-- C1, amended: an empty `type` is a structural violation for every kind
(the unconditional `required` tag), and when `kind = consumed` the
struct-level hook additionally reports the `reqtypeconsumed` violation; so
`kind = consumed` with empty `type` fails as claimed, but `kind = produced`
with empty `type` fails as well. -/
theorem C1_empty_type_always_fails (e : Event) :
    (e.type = "" → e.structValid = false) ∧
    (e.kind = EventKindConsumed → e.type = "" →
      Violation.mk "Type" "reqtypeconsumed" ∈ e.validateStruct) := by
  constructor
  · intro h
    simp [Event.structValid, Event.validateStruct, Event.fieldViolations, h]
  · intro hk ht
    simp [Event.validateStruct, Event.fieldViolations, EventStructLevelValidation,
      hk, ht]

/-- C1, witness for the amended theorem at a concrete consumed event with
empty type. -/
theorem C1_empty_type_always_fails_witness :
    Violation.mk "Type" "reqtypeconsumed"
      ∈ Event.validateStruct ⟨"GreetingEvent", "", "", EventKindConsumed, false, []⟩ :=
  (C1_empty_type_always_fails ⟨"GreetingEvent", "", "", EventKindConsumed, false, []⟩).2
    rfl rfl

/-! ### Claim C2 -/

/-- C2, counterexample: two documents identical except that one uses the
legacy spelling `triggerEventRef` and the other the 0.8 spelling
`produceEventref` for the same semantic field do NOT resolve to the same
shape — the two spellings populate two distinct `EventRef` fields and no
canonical field exists. -/
theorem C2_claim_counterexample :
    (decodeEventRef [("triggerEventRef", Json.str "MakeVetAppointment")]).map
        EventRef.triggerEventRef ≠
      (decodeEventRef [("produceEventref", Json.str "MakeVetAppointment")]).map
        EventRef.triggerEventRef ∧
    (decodeEventRef [("triggerEventRef", Json.str "MakeVetAppointment")]).map
        EventRef.produceEventRef ≠
      (decodeEventRef [("produceEventref", Json.str "MakeVetAppointment")]).map
        EventRef.produceEventRef := by
  constructor <;> decide

/-- C2, amended: the legacy and current spellings are decoded into distinct
`EventRef` fields with no normalization and no precedence rule: whichever
keys are present populate exactly their own fields, and a document supplying
both spellings retains both values independently. -/
theorem C2_no_aliasing (a b : String) :
    decodeEventRef [("triggerEventRef", Json.str a), ("produceEventref", Json.str b)] =
      some ⟨a, b, "", "", "", none, []⟩ ∧
    decodeEventRef [("triggerEventRef", Json.str a)] =
      some ⟨a, "", "", "", "", none, []⟩ ∧
    decodeEventRef [("produceEventref", Json.str b)] =
      some ⟨"", b, "", "", "", none, []⟩ := by
  refine ⟨?_, ?_, ?_⟩ <;> simp [decodeEventRef, Json.getStr, Json.lookup]

/-! ### Claim C10 -/

/-- C10: an `Event` passes structural validation only if every correlation
entry carries a non-empty `contextAttributeName`, while
`contextAttributeValue` is never inspected (erasing every value changes no
validation outcome). -/
theorem C10_correlation_name_required (e : Event) :
    (e.structValid = true → ∀ c ∈ e.correlation, c.contextAttributeName ≠ "") ∧
    (Event.validateStruct
        { e with correlation :=
            e.correlation.map (fun c => { c with contextAttributeValue := "" }) } =
      Event.validateStruct e) := by
  constructor
  · intro h c hc hname
    have h0 : e.validateStruct = [] := by
      simpa [Event.structValid] using h
    have h1 : Correlation.fieldViolations c = [] := by
      simp [Event.validateStruct, Event.fieldViolations, List.append_eq_nil,
        List.flatMap_eq_nil_iff] at h0
      exact h0.2.2.1 c hc
    simp [Correlation.fieldViolations, hname] at h1
  · have herase : ∀ l : List Correlation,
        (l.map (fun c => { c with contextAttributeValue := "" })).flatMap
            Correlation.fieldViolations =
          l.flatMap Correlation.fieldViolations := by
      intro l
      induction l with
      | nil => rfl
      | cons c rest ih => simp [Correlation.fieldViolations, ih]
    simp [Event.validateStruct, Event.fieldViolations, EventStructLevelValidation,
      herase]

/-- C10, witness: a concrete event whose single correlation entry has an
empty `contextAttributeValue` passes validation, so its attribute name is
forced non-empty. -/
theorem C10_correlation_name_required_witness :
    ("patientId" : String) ≠ "" :=
  (C10_correlation_name_required
      ⟨"HighBodyTemperature", "", "org.monitor.highBodyTemp", EventKindConsumed,
        false, [⟨"patientId", ""⟩]⟩).1
    (by decide) ⟨"patientId", ""⟩ (by decide)

/-! ### Claim C8 -/

/-- C8: an event whose `kind` field is absent from the raw document parses
with `kind = consumed` after default injection, and any explicitly supplied
kind string (in particular `produced` and `consumed`) is preserved
unchanged. -/
theorem C8_kind_defaults_to_consumed (o : List (String × Json)) :
    (Json.lookup o "kind" = none →
      (applyEventDefaults (decodeRawEvent o)).kind = EventKindConsumed) ∧
    (∀ k : String, Json.lookup o "kind" = some (Json.str k) →
      (applyEventDefaults (decodeRawEvent o)).kind = k) := by
  constructor
  · intro h
    simp [applyEventDefaults, decodeRawEvent, strOpt, h]
  · intro k h
    simp [applyEventDefaults, decodeRawEvent, strOpt, h]

/-- C8, witness: a concrete event without `kind` parses as consumed; one
with an explicit `kind: "produced"` keeps it. -/
theorem C8_kind_defaults_to_consumed_witness :
    (applyEventDefaults (decodeRawEvent
        [("name", Json.str "GreetingEvent")])).kind = EventKindConsumed ∧
    (applyEventDefaults (decodeRawEvent
        [("name", Json.str "provisioningCompleteEvent"),
         ("kind", Json.str "produced")])).kind = "produced" :=
  ⟨(C8_kind_defaults_to_consumed [("name", Json.str "GreetingEvent")]).1 rfl,
   (C8_kind_defaults_to_consumed [("name", Json.str "provisioningCompleteEvent"),
      ("kind", Json.str "produced")]).2 "produced" rfl⟩

/-! ### Claim C9 -/

/-- C9: for an event state, the `exclusive` default applies only when the
field is absent from the raw document — absent parses as `true`, while an
explicit `exclusive: false` (the zero value) is preserved as `false`. -/
theorem C9_exclusive_default_only_when_absent (o : List (String × Json)) (i : Nat)
    (htype : Json.lookup o "type" = some (Json.str "event")) :
    (Json.lookup o "exclusive" = none →
      parseState i (Json.obj o) =
        .ok (State.event (strD o "name") true (decodeTransitionOpt o) (decodeEndOpt o))) ∧
    (Json.lookup o "exclusive" = some (Json.bool false) →
      parseState i (Json.obj o) =
        .ok (State.event (strD o "name") false (decodeTransitionOpt o) (decodeEndOpt o))) := by
  constructor
  · intro h
    simp [parseState, resolveState, strOpt, htype, boolOpt, h, applyStateDefaults,
      Except.map]
  · intro h
    simp [parseState, resolveState, strOpt, htype, boolOpt, h, applyStateDefaults,
      Except.map]

/-- C9, witness: a concrete event state without `exclusive` parses with
`exclusive = true`; one with an explicit `exclusive: false` keeps `false`. -/
theorem C9_exclusive_default_only_when_absent_witness :
    parseState 0 (Json.obj [("name", Json.str "MonitorVitals"),
        ("type", Json.str "event")]) =
      .ok (State.event "MonitorVitals" true none none) ∧
    parseState 0 (Json.obj [("name", Json.str "FinalizeApplication"),
        ("type", Json.str "event"), ("exclusive", Json.bool false)]) =
      .ok (State.event "FinalizeApplication" false none none) :=
  ⟨(C9_exclusive_default_only_when_absent
      [("name", Json.str "MonitorVitals"), ("type", Json.str "event")] 0 rfl).1 rfl,
   (C9_exclusive_default_only_when_absent
      [("name", Json.str "FinalizeApplication"), ("type", Json.str "event"),
       ("exclusive", Json.bool false)] 0 rfl).2 rfl⟩

/-! ### Claim C3 -/

/-- C3: the state discriminator is matched against a closed enumeration — a
`type` value outside it fails resolution with `UnsupportedTypeError` naming
the offending state's field path, while every recognized value resolves
into the concrete state variant corresponding to that discriminator. -/
theorem C3_discriminator_closure (i : Nat) (o : List (String × Json)) (t : String)
    (h : Json.lookup o "type" = some (Json.str t)) :
    (t ∉ recognizedStateTypes →
      resolveState i (Json.obj o) =
        .error (ParseError.unsupportedType (statePath i) t)) ∧
    (t ∈ recognizedStateTypes →
      (resolveState i (Json.obj o)).map RawState.typeString = .ok t) := by
  constructor
  · intro hn
    simp only [recognizedStateTypes, List.mem_cons, List.not_mem_nil, or_false,
      not_or] at hn
    obtain ⟨h1, h2, h3, h4, h5, h6, h7, h8⟩ := hn
    simp [resolveState, strOpt, h, h1, h2, h3, h4, h5, h6, h7, h8]
  · intro hm
    simp only [recognizedStateTypes, List.mem_cons, List.not_mem_nil, or_false] at hm
    rcases hm with rfl | rfl | rfl | rfl | rfl | rfl | rfl | rfl
    · simp [resolveState, strOpt, h, RawState.typeString, Except.map]
    · rcases hdc : Json.lookup o "dataConditions" with _ | j
      · simp [resolveState, strOpt, h, hdc, RawState.typeString, Except.map]
      · cases j <;> simp [resolveState, strOpt, h, hdc, RawState.typeString, Except.map]
    · simp [resolveState, strOpt, h, RawState.typeString, Except.map]
    · simp [resolveState, strOpt, h, RawState.typeString, Except.map]
    · simp [resolveState, strOpt, h, RawState.typeString, Except.map]
    · simp [resolveState, strOpt, h, RawState.typeString, Except.map]
    · simp [resolveState, strOpt, h, RawState.typeString, Except.map]
    · simp [resolveState, strOpt, h, RawState.typeString, Except.map]

/-- C3, witness: a concrete state object with `type: "unknowntype"` fails
naming `states[0].type`; the recognized `type: "switch"` resolves to a
switch variant. -/
theorem C3_discriminator_closure_witness :
    resolveState 0 (Json.obj [("name", Json.str "CheckVisaStatus"),
        ("type", Json.str "unknowntype")]) =
      .error (ParseError.unsupportedType "states[0].type" "unknowntype") ∧
    (resolveState 0 (Json.obj [("name", Json.str "CheckVisaStatus"),
        ("type", Json.str "switch"), ("eventConditions", Json.arr [])])).map
      RawState.typeString = .ok "switch" :=
  ⟨(C3_discriminator_closure 0
      [("name", Json.str "CheckVisaStatus"), ("type", Json.str "unknowntype")]
      "unknowntype" rfl).1 (by decide),
   (C3_discriminator_closure 0
      [("name", Json.str "CheckVisaStatus"), ("type", Json.str "switch"),
       ("eventConditions", Json.arr [])]
      "switch" rfl).2 (by decide)⟩

/-! ### Claim C4 -/

/-- C4: for every document that resolves, validation runs both passes to
completion and returns either the fully valid workflow or one aggregated
`ValidationError` holding exactly the violations of the structural pass
followed by those of the graph pass — never only the first defect and never
a partial model. -/
theorem C4_validation_aggregates (doc : Json) (raw : RawWorkflow)
    (h : resolveWorkflow doc = .ok raw) :
    (validate (applyDefaults raw) = [] ∧ pipeline doc = .ok (applyDefaults raw)) ∨
    (validate (applyDefaults raw) ≠ [] ∧
      pipeline doc = .error (ParseError.validationError
        (structuralPass (applyDefaults raw) ++ graphPass (applyDefaults raw))) ∧
      ∀ v : Violation,
        v ∈ validate (applyDefaults raw) ↔
          v ∈ structuralPass (applyDefaults raw) ∨ v ∈ graphPass (applyDefaults raw)) := by
  by_cases hv : validate (applyDefaults raw) = []
  · exact Or.inl ⟨hv, by simp [pipeline, h, hv]⟩
  · refine Or.inr ⟨hv, ?_, ?_⟩
    · simp only [pipeline, h]
      rw [if_neg hv]
      rfl
    · intro v
      simp [validate, List.mem_append]

/-- C4, witness: a concrete deficient document (missing name, states and a
resolvable start) is rejected with the aggregate of both passes'
violations. -/
theorem C4_validation_aggregates_witness :
    pipeline (Json.obj [("id", Json.str "w1")]) =
      .error (ParseError.validationError
        (structuralPass (applyDefaults ⟨"w1", "", "", "", "", [], [], []⟩) ++
          graphPass (applyDefaults ⟨"w1", "", "", "", "", [], [], []⟩))) :=
  (Or.resolve_left
    (C4_validation_aggregates (Json.obj [("id", Json.str "w1")])
      ⟨"w1", "", "", "", "", [], [], []⟩ rfl)
    (fun hc => absurd hc.1 (by decide))).2.1

/-! ### Claim C6 -/

/-- The shared body of the two C6 documents; only `maxAttempts` differs. -/
def c6doc (maxAttempts : Json) : Json :=
  Json.obj [("id", Json.str "patientonboarding"),
    ("name", Json.str "Patient Onboarding"),
    ("version", Json.str "1.0"), ("specVersion", Json.str "0.8"),
    ("start", Json.obj [("stateName", Json.str "Onboard")]),
    ("states", Json.arr [Json.obj [("name", Json.str "Onboard"),
      ("type", Json.str "event"),
      ("end", Json.obj [("terminate", Json.bool true)])]]),
    ("retries", Json.arr [Json.obj [
      ("name", Json.str "ServicesNotAvailableRetryStrategy"),
      ("delay", Json.str "PT3S"),
      ("maxAttempts", maxAttempts)]])]

/-- C6: `maxAttempts: 10` and `maxAttempts: "10"` both normalize to the
integer 10, the two otherwise-identical documents produce the same parsed
model, and that model carries `maxAttempts = 10`. -/
theorem C6_int_or_string :
    decodeIntOrString (some (Json.num 10)) = some 10 ∧
    decodeIntOrString (some (Json.str "10")) = some 10 ∧
    pipeline (c6doc (Json.num 10)) = pipeline (c6doc (Json.str "10")) ∧
    ∃ w : Workflow, pipeline (c6doc (Json.num 10)) = .ok w ∧
      w.retries = [⟨"ServicesNotAvailableRetryStrategy", "PT3S", 10⟩] := by
  refine ⟨rfl, rfl, rfl, ⟨_, rfl, rfl⟩⟩

/-! ### Claim C7 -/

/-- C7: whenever the full pipeline succeeds, re-serializing the resulting
model and re-running the full pipeline on the serialization yields the same
model, field for field (defaulted fields round-trip as explicitly present
values). -/
theorem C7_pipeline_roundtrip (doc : Json) (m : Workflow)
    (h : pipeline doc = .ok m) :
    pipeline (serializeWorkflow m) = .ok m := by
  rcases hcase : resolveWorkflow doc with e | raw
  · simp only [pipeline, hcase] at h
    exact absurd h (by simp)
  · simp only [pipeline, hcase] at h
    by_cases hv : validate (applyDefaults raw) = []
    · rw [if_pos hv] at h
      injection h with h'
      subst h'
      simp only [pipeline, resolveWorkflow_serialize (applyDefaults raw),
        applyDefaults_rawOf]
      rw [if_pos hv]
    · rw [if_neg hv] at h
      exact absurd h (by simp)

/-- A concrete valid single-state document for the round-trip witness. -/
def c7doc : Json :=
  Json.obj [("id", Json.str "w1"), ("name", Json.str "W1"),
    ("version", Json.str "1.0"), ("specVersion", Json.str "0.8"),
    ("start", Json.obj [("stateName", Json.str "A")]),
    ("states", Json.arr [Json.obj [("name", Json.str "A"),
      ("type", Json.str "inject"),
      ("end", Json.obj [("terminate", Json.bool true)])]])]

/-- The model `c7doc` parses to. -/
def c7wf : Workflow :=
  ⟨"w1", "W1", "1.0", "0.8", "A", [State.inject "A" none (some ⟨true⟩)], [], []⟩

/-- C7, witness: the round-trip property applied to the concrete document
`c7doc`. -/
theorem C7_pipeline_roundtrip_witness :
    pipeline (serializeWorkflow c7wf) = .ok c7wf :=
  C7_pipeline_roundtrip c7doc c7wf rfl

/-! ### Claim C5 -/

/-- The data-condition expression of the credit-check example, character for
character (`\x7b`/`\x7d` denote the literal braces). -/
def c5expr : String := "$\x7b .creditCheck | .decision == \"Approved\" \x7d"

/-- The credit-check document: a data-based switch with one data condition
and a default condition, plus its two target states. -/
def c5doc : Json :=
  Json.obj [("id", Json.str "customercreditcheck"),
    ("name", Json.str "Customer Credit Check"),
    ("version", Json.str "1.0"), ("specVersion", Json.str "0.8"),
    ("start", Json.obj [("stateName", Json.str "EvaluateDecision")]),
    ("states", Json.arr [
      Json.obj [("name", Json.str "EvaluateDecision"), ("type", Json.str "switch"),
        ("dataConditions", Json.arr [Json.obj [
          ("condition", Json.str c5expr),
          ("transition", Json.obj [("nextState", Json.str "StartApplication")])]]),
        ("defaultCondition", Json.obj [("transition",
          Json.obj [("nextState", Json.str "RejectApplication")])])],
      Json.obj [("name", Json.str "StartApplication"), ("type", Json.str "operation"),
        ("end", Json.obj [("terminate", Json.bool true)])],
      Json.obj [("name", Json.str "RejectApplication"), ("type", Json.str "operation"),
        ("end", Json.obj [("terminate", Json.bool true)])]])]

/-- The model `c5doc` parses to. -/
def c5wf : Workflow :=
  ⟨"customercreditcheck", "Customer Credit Check", "1.0", "0.8", "EvaluateDecision",
   [State.dataBasedSwitch "EvaluateDecision"
      [DataCondition.transition c5expr ⟨"StartApplication"⟩]
      (some (DefaultCondition.transition ⟨"RejectApplication"⟩)),
    State.operation "StartApplication" "sequential" none (some ⟨true⟩),
    State.operation "RejectApplication" "sequential" none (some ⟨true⟩)],
   [], []⟩

/-- C5: a data-based switch state lacking a default condition always fails
validation; the concrete credit-check document parses successfully with its
single data condition at index 0 of the condition sequence, the condition
expression preserved verbatim and its transition targeting
`StartApplication`. -/
theorem C5_switch_default_and_conditions :
    (∀ (w : Workflow) (n : String) (conds : List DataCondition),
      State.dataBasedSwitch n conds none ∈ w.states → validate w ≠ []) ∧
    pipeline c5doc = .ok c5wf ∧
    c5wf.states.head? = some (State.dataBasedSwitch "EvaluateDecision"
      [DataCondition.transition c5expr ⟨"StartApplication"⟩]
      (some (DefaultCondition.transition ⟨"RejectApplication"⟩))) := by
  refine ⟨?_, rfl, rfl⟩
  intro w n conds hmem hval
  have hD : switchDefaultViolations (State.dataBasedSwitch n conds none) = [] := by
    have hval' : structuralPass w ++ graphPass w = [] := hval
    have hg : graphPass w = [] := (List.append_eq_nil.mp hval').2
    simp only [graphPass, List.append_eq_nil, List.flatMap_eq_nil_iff] at hg
    exact hg.1.2 _ hmem
  simp [switchDefaultViolations] at hD

/-- C5, witness: the same switch with its default condition removed is
rejected by validation. -/
theorem C5_switch_default_and_conditions_witness :
    validate ⟨"customercreditcheck", "Customer Credit Check", "1.0", "0.8",
      "EvaluateDecision",
      [State.dataBasedSwitch "EvaluateDecision"
        [DataCondition.transition c5expr ⟨"StartApplication"⟩] none,
       State.operation "StartApplication" "sequential" none (some ⟨true⟩),
       State.operation "RejectApplication" "sequential" none (some ⟨true⟩)],
      [], []⟩ ≠ [] :=
  C5_switch_default_and_conditions.1 _ "EvaluateDecision"
    [DataCondition.transition c5expr ⟨"StartApplication"⟩] (by decide)

end SdkGo
